import Mathlib

/-
Verification of the sca-backend request dispatcher (src/main.py).

The service is embedded shallowly:
- JSON values produced by `json.loads` are the inductive `JValue`
  (JSON numbers are modelled as integers; no claim depends on floats).
- `json.loads` itself is an external library routine, modelled as an
  abstract parameter `jsonLoads : String → Option JValue`
  (`none` models a raised `json.JSONDecodeError`).
- The external inference endpoint is modelled per call by a `NetResult`:
  either an HTTP response (status code and body text) or a raised
  transport exception (network error, timeout).
- `call_language_engine` and `process_prompt` are translated line by line;
  `process_prompt` additionally returns the list of outbound engine calls
  it made, the number of knowledge-store accesses it performed, and the
  store state after the request.
-/

namespace SCA

/-- JSON values as returned by json.loads. Numeric literals are modelled
as integers. -/
inductive JValue where
  | null : JValue
  | bool : Bool → JValue
  | num : Int → JValue
  | str : String → JValue
  | arr : List JValue → JValue
  | obj : List (String × JValue) → JValue

/-- Lookup of a key in a parsed JSON object. Python dicts built by
json.loads keep the last binding of a duplicated key, hence the fold. -/
def lookupLast (fields : List (String × JValue)) (key : String) : Option JValue :=
  fields.foldl (fun acc kv => if kv.1 = key then some kv.2 else acc) none

/-- Python dict.get(key) on a parsed JSON value: on an object it yields
the bound value or None (modelled as JValue.null); on any non-object it
raises AttributeError, modelled as none at the call site. -/
def pyGet : JValue → String → Option JValue
  | .obj fields, key => some ((lookupLast fields key).getD .null)
  | _, _ => none

/-- Python equality of a JSON-derived value against a string literal, as
in structured_query.get("action") == "query_properties": only an equal
string compares equal; None, booleans, numbers and containers do not. -/
def pyEqStr : JValue → String → Bool
  | .str s, t => s == t
  | _, _ => false

mutual

/-- Python str() of a JSON-derived value, as interpolated into the
curiosity f-string. Inside containers Python uses repr, which quotes
strings; escaping of quote characters inside strings is not modelled
(no claim exercises it). -/
def pyRepr : JValue → String
  | .null => "None"
  | .bool true => "True"
  | .bool false => "False"
  | .num n => toString n
  | .str s => "\x27" ++ s ++ "\x27"
  | .arr xs => "[" ++ pyReprArr xs ++ "]"
  | .obj fs => "\x7b" ++ pyReprObj fs ++ "\x7d"

/-- Comma-separated reprs of the elements of a Python list. -/
def pyReprArr : List JValue → String
  | [] => ""
  | [x] => pyRepr x
  | x :: y :: rest => pyRepr x ++ ", " ++ pyReprArr (y :: rest)

/-- Comma-separated reprs of the items of a Python dict. -/
def pyReprObj : List (String × JValue) → String
  | [] => ""
  | [(k, v)] => "\x27" ++ k ++ "\x27: " ++ pyRepr v
  | (k, v) :: f :: rest => "\x27" ++ k ++ "\x27: " ++ pyRepr v ++ ", " ++ pyReprObj (f :: rest)

end

/-- Python str() at top level: a string interpolates as itself, every
other value as its repr. -/
def pyStr (v : JValue) : String :=
  match v with
  | .str s => s
  | _ => pyRepr v

/-- Escaping of a character inside a JSON string literal, as json.dumps
does (control characters other than newline, tab and carriage return are
not modelled; no claim exercises them). -/
def escapeChar (c : Char) : String :=
  if c = '"' then "\\\""
  else if c = '\\' then "\\\\"
  else if c = '\n' then "\\n"
  else if c = '\t' then "\\t"
  else if c = '\r' then "\\r"
  else String.singleton c

/-- Escaping of a whole string for json.dumps. -/
def escapeString (s : String) : String :=
  String.join (s.toList.map escapeChar)

mutual

/-- Python json.dumps with its default separators. -/
def dumpsJ : JValue → String
  | .null => "null"
  | .bool true => "true"
  | .bool false => "false"
  | .num n => toString n
  | .str s => "\"" ++ escapeString s ++ "\""
  | .arr xs => "[" ++ dumpsArr xs ++ "]"
  | .obj fs => "\x7b" ++ dumpsObj fs ++ "\x7d"

/-- Comma-separated dumps of the elements of a JSON array. -/
def dumpsArr : List JValue → String
  | [] => ""
  | [x] => dumpsJ x
  | x :: y :: rest => dumpsJ x ++ ", " ++ dumpsArr (y :: rest)

/-- Comma-separated dumps of the items of a JSON object. -/
def dumpsObj : List (String × JValue) → String
  | [] => ""
  | [(k, v)] => "\"" ++ escapeString k ++ "\": " ++ dumpsJ v
  | (k, v) :: f :: rest =>
      "\"" ++ escapeString k ++ "\": " ++ dumpsJ v ++ ", " ++ dumpsObj (f :: rest)

end

/-- The in-memory knowledge store: a directed graph with property lists
on the nodes and action labels on the edges, as built by networkx. -/
structure KGraph where
  nodes : List (String × List String)
  edges : List (String × String × String)

/-- The seeded world model G of src/main.py lines 11-18. -/
def G : KGraph :=
  { nodes := [("water", ["liquid", "wet"]), ("ice", ["solid", "cold"]),
              ("heat", ["energy"])]
  , edges := [("water", "ice", "remove_heat"), ("ice", "water", "apply_heat")] }

/-- networkx G.has_node applied to a JSON-derived subject. Node keys are
strings, so no non-string JSON value is a node: None, booleans and
numbers hash but never equal a string key, and an unhashable list or
dict makes has_node catch the TypeError and return False. -/
def KGraph.has_node (g : KGraph) (n : JValue) : Bool :=
  match n with
  | .str s => g.nodes.any (fun p => p.1 = s)
  | _ => false

/-- G.nodes[subject].get("properties", []): the property list recorded
for a node, defaulting to the empty list. Only evaluated by the code
after has_node succeeds, so the non-string arm is unreachable there. -/
def KGraph.nodeProperties (g : KGraph) (n : JValue) : List String :=
  match n with
  | .str s => ((g.nodes.find? (fun p => p.1 = s)).map Prod.snd).getD []
  | _ => []

/-- An HTTP response from the inference endpoint: its status code and
body text. response.json() is modelled by applying the abstract
jsonLoads to the body text. -/
structure HttpResp where
  status_code : Nat
  text : String

/-- Outcome of the httpx POST itself: a response, or a raised transport
exception (connection error, timeout) carrying its message. -/
inductive NetResult where
  | ok : HttpResp → NetResult
  | exc : String → NetResult

/-- httpx response.raise_for_status() raises unless the status code is
in the 2xx success range. -/
def isSuccess (code : Nat) : Bool :=
  200 ≤ code && code ≤ 299

/-- Result of call_language_engine: the returned string, or a raised
fastapi HTTPException with a status code and a detail message. -/
inductive EngineResult where
  | ok : String → EngineResult
  | httpException : Nat → String → EngineResult

/-- result[0] followed by ['generated_text'] followed by .strip()
succeeds exactly when the parsed body is a JSON array whose first
element is an object binding "generated_text" to a string; every other
shape raises an exception inside the try block. -/
def firstGeneratedText (v : JValue) : Option String :=
  match v with
  | .arr (x :: _) =>
    match x with
    | .obj fields =>
      match lookupLast fields "generated_text" with
      | some (.str s) => some s
      | _ => none
    | _ => none
  | _ => none

/-- Instruction string selected by the direction argument
(src/main.py lines 77-80). -/
def instructionFor (direction : String) : String :=
  if direction = "to_query" then
    "Convert the following sentence to a structured query."
  else
    "Convert the following structured data to a sentence."

/-- The fixed instruction-and-input prompt template
(src/main.py line 82). -/
def promptTemplate (instruction input_text : String) : String :=
  "### Instruction:\n" ++ instruction ++ "\n\n### Input:\n" ++ input_text
    ++ "\n\n### Response:\n"

/-- Python str.strip(): the string with leading and trailing whitespace
characters removed. -/
def pyStrip (s : String) : String :=
  ⟨((s.data.dropWhile Char.isWhitespace).reverse.dropWhile Char.isWhitespace).reverse⟩

/-- Placeholder for str(e) of a JSONDecodeError raised by
response.json(); the exact Python text is runtime-dependent. -/
def jsonDecodeFailureMsg : String :=
  "response body is not valid JSON"

/-- Placeholder for str(e) of the exception raised when the parsed body
lacks the result[0].generated_text string; the exact Python text is
runtime-dependent. -/
def responseShapeFailureMsg : String :=
  "response shape lacks a generated_text string in its first element"

/-- call_language_engine (src/main.py lines 73-98). The POST outcome is
the abstract net argument; the try block either returns the trimmed
generated text, or raises: an HTTPStatusError from raise_for_status
becomes an HTTPException with the upstream status code and body text,
and any other exception becomes an HTTPException with status 500. -/
def call_language_engine (jsonLoads : String → Option JValue)
    (input_text direction : String) (net : NetResult) : EngineResult :=
  match net with
  | .exc msg => .httpException 500 ("An unexpected error occurred: " ++ msg)
  | .ok resp =>
    if isSuccess resp.status_code then
      match jsonLoads resp.text with
      | none =>
          .httpException 500
            ("An unexpected error occurred: " ++ jsonDecodeFailureMsg)
      | some v =>
        match firstGeneratedText v with
        | some s => .ok (pyStrip s)
        | none =>
            .httpException 500
              ("An unexpected error occurred: " ++ responseShapeFailureMsg)
    else
      .httpException resp.status_code ("Error from HF API: " ++ resp.text)

/-- Outcome of one POST /process request: a normally returned response
body (served as HTTP 200), an HTTPException escaping to fastapi (served
with its own status code), or an unhandled Python exception. -/
inductive ProcResult where
  | body : String → String → ProcResult
  | httpError : Nat → String → ProcResult
  | raised : String → ProcResult

/-- Message of the AttributeError raised when .get is called on a parsed
JSON value that is not an object. -/
def attributeErrorMsg : String :=
  "AttributeError: the parsed value has no attribute get"

/-- Observable outcome of process_prompt: its result, the outbound
engine calls it made in order (input text and direction of each), the
number of knowledge-store accesses, and the store state afterwards. -/
structure ProcOutput where
  result : ProcResult
  calls : List (String × String)
  lookups : Nat
  graph : KGraph

/-- process_prompt (src/main.py lines 42-71), translated branch by
branch. net1 and net2 are the POST outcomes of the first and second
engine call; the store g is threaded through explicitly. -/
def process_prompt (jsonLoads : String → Option JValue) (g : KGraph)
    (net1 net2 : NetResult) (prompt : String) : ProcOutput :=
  match call_language_engine jsonLoads prompt "to_query" net1 with
  | .httpException code detail =>
      ⟨.httpError code detail, [(prompt, "to_query")], 0, g⟩
  | .ok structured_query_str =>
    match jsonLoads structured_query_str with
    | none =>
        ⟨.body "I had trouble understanding that. Could you rephrase?" "error",
         [(prompt, "to_query")], 0, g⟩
    | some structured_query =>
      match structured_query with
      | .obj fields =>
        let subject := (lookupLast fields "subject").getD .null
        if g.has_node subject = false then
          ⟨.body ("I don\x27t have information about \x27" ++ pyStr subject
              ++ "\x27. Can you describe its properties or how it relates to things I know?")
            "curious",
           [(prompt, "to_query")], 1, g⟩
        else if pyEqStr ((lookupLast fields "action").getD .null) "query_properties" then
          let properties := g.nodeProperties subject
          let response_data :=
            dumpsJ (.obj [("subject", subject),
                          ("properties", .arr (properties.map .str))])
          match call_language_engine jsonLoads response_data "to_sentence" net2 with
          | .httpException code detail =>
              ⟨.httpError code detail,
               [(prompt, "to_query"), (response_data, "to_sentence")], 2, g⟩
          | .ok human_response =>
              ⟨.body human_response "success",
               [(prompt, "to_query"), (response_data, "to_sentence")], 2, g⟩
        else
          ⟨.body "I understand the subject, but I\x27m not sure how to perform that action yet."
            "unknown_action",
           [(prompt, "to_query")], 1, g⟩
      | _ =>
          ⟨.raised attributeErrorMsg, [(prompt, "to_query")], 0, g⟩

/-- A concrete jsonLoads for closed instantiations: a finite table of
strings and their parses; everything else fails to parse. -/
def demoLoads : String → Option JValue := fun s =>
  if s = "\x7b\"subject\": \"ice\", \"action\": \"query_properties\"\x7d" then
    some (.obj [("subject", .str "ice"), ("action", .str "query_properties")])
  else if s = "\x7b\"subject\": \"fire\"\x7d" then
    some (.obj [("subject", .str "fire")])
  else if s = "\x7b\"subject\": \"ice\", \"action\": \"freeze\"\x7d" then
    some (.obj [("subject", .str "ice"), ("action", .str "freeze")])
  else if s = "[\"list\"]" then
    some (.arr [.str "list"])
  else if s = "engine says query" then
    some (.arr [.obj [("generated_text",
      .str "\x7b\"subject\": \"ice\", \"action\": \"query_properties\"\x7d")]])
  else if s = "engine says fire" then
    some (.arr [.obj [("generated_text", .str "\x7b\"subject\": \"fire\"\x7d")]])
  else if s = "engine says freeze" then
    some (.arr [.obj [("generated_text",
      .str "\x7b\"subject\": \"ice\", \"action\": \"freeze\"\x7d")]])
  else if s = "engine says list" then
    some (.arr [.obj [("generated_text", .str "[\"list\"]")]])
  else if s = "engine says notjson" then
    some (.arr [.obj [("generated_text", .str "not json")]])
  else if s = "engine says sentence" then
    some (.arr [.obj [("generated_text", .str "Ice is solid and cold.")]])
  else if s = "engine says padded" then
    some (.arr [.obj [("generated_text", .str "  Ice is solid and cold.\n")]])
  else
    none

/-- A failed first engine call escapes process_prompt before the try
block: the HTTPException becomes the request outcome, with no store
access and no further engine call. -/
theorem process_prompt_first_call_httpError (jsonLoads : String → Option JValue)
    (g : KGraph) (net1 net2 : NetResult) (prompt : String) (code : Nat) (detail : String)
    (h : call_language_engine jsonLoads prompt "to_query" net1
           = .httpException code detail) :
    process_prompt jsonLoads g net1 net2 prompt
      = ⟨.httpError code detail, [(prompt, "to_query")], 0, g⟩ := by
  unfold process_prompt
  rw [h]

/-- C1: for a parsed structured query whose subject is a node of the
store and whose action is "query_properties", the properties serialized
into the sentence-translation call are exactly the store's recorded
property list for that subject, and the request returns status
"success" with the sentence-translation output as the response. -/
theorem c1_query_properties_success (jsonLoads : String → Option JValue)
    (g : KGraph) (net1 net2 : NetResult) (prompt s t : String)
    (fields : List (String × JValue)) (subject : JValue)
    (h1 : call_language_engine jsonLoads prompt "to_query" net1 = .ok s)
    (h2 : jsonLoads s = some (.obj fields))
    (h3 : pyGet (.obj fields) "subject" = some subject)
    (h4 : g.has_node subject = true)
    (h5 : pyGet (.obj fields) "action" = some (.str "query_properties"))
    (h6 : call_language_engine jsonLoads
            (dumpsJ (.obj [("subject", subject),
                           ("properties", .arr ((g.nodeProperties subject).map .str))]))
            "to_sentence" net2 = .ok t) :
    process_prompt jsonLoads g net1 net2 prompt =
      ⟨.body t "success",
       [(prompt, "to_query"),
        (dumpsJ (.obj [("subject", subject),
                       ("properties", .arr ((g.nodeProperties subject).map .str))]),
         "to_sentence")], 2, g⟩ := by
  have hs : (lookupLast fields "subject").getD .null = subject := by
    simpa [pyGet] using h3
  have ha : (lookupLast fields "action").getD .null = .str "query_properties" := by
    simpa [pyGet] using h5
  unfold process_prompt
  rw [h1]
  simp [h2, hs, ha, h4, h6, pyEqStr]

/-- C2: for a parsed structured query whose subject is not a node of the
store (a missing subject parses to None and is likewise not a node),
process_prompt returns status "curious" with a message embedding the
subject, having made exactly one outbound engine call, the initial
query-translation. -/
theorem c2_unknown_subject_curious (jsonLoads : String → Option JValue)
    (g : KGraph) (net1 net2 : NetResult) (prompt s : String)
    (fields : List (String × JValue)) (subject : JValue)
    (h1 : call_language_engine jsonLoads prompt "to_query" net1 = .ok s)
    (h2 : jsonLoads s = some (.obj fields))
    (h3 : pyGet (.obj fields) "subject" = some subject)
    (h4 : g.has_node subject = false) :
    process_prompt jsonLoads g net1 net2 prompt =
      ⟨.body ("I don\x27t have information about \x27" ++ pyStr subject
          ++ "\x27. Can you describe its properties or how it relates to things I know?")
        "curious",
       [(prompt, "to_query")], 1, g⟩ := by
  have hs : (lookupLast fields "subject").getD .null = subject := by
    simpa [pyGet] using h3
  unfold process_prompt
  rw [h1]
  simp [h2, hs, h4]

/-- C3: when the query-translation call succeeds but returns text that
is not valid JSON, process_prompt returns the fixed rephrase message
with status "error" as a normal (HTTP 200) response, performing no
store lookup and no second engine call. -/
theorem c3_invalid_json_local_recovery (jsonLoads : String → Option JValue)
    (g : KGraph) (net1 net2 : NetResult) (prompt s : String)
    (h1 : call_language_engine jsonLoads prompt "to_query" net1 = .ok s)
    (h2 : jsonLoads s = none) :
    process_prompt jsonLoads g net1 net2 prompt =
      ⟨.body "I had trouble understanding that. Could you rephrase?" "error",
       [(prompt, "to_query")], 0, g⟩ := by
  unfold process_prompt
  rw [h1]
  simp [h2]

/-- C4: for a parsed structured query whose subject is a node of the
store and whose action is anything that does not Python-equal the
string "query_properties" (a missing action parses to None and never
equals it), process_prompt returns status "unknown_action" with the
fixed message and makes no sentence-translation call. -/
theorem c4_unknown_action (jsonLoads : String → Option JValue)
    (g : KGraph) (net1 net2 : NetResult) (prompt s : String)
    (fields : List (String × JValue)) (subject a : JValue)
    (h1 : call_language_engine jsonLoads prompt "to_query" net1 = .ok s)
    (h2 : jsonLoads s = some (.obj fields))
    (h3 : pyGet (.obj fields) "subject" = some subject)
    (h4 : g.has_node subject = true)
    (h5 : pyGet (.obj fields) "action" = some a)
    (h6 : pyEqStr a "query_properties" = false) :
    process_prompt jsonLoads g net1 net2 prompt =
      ⟨.body "I understand the subject, but I\x27m not sure how to perform that action yet."
        "unknown_action",
       [(prompt, "to_query")], 1, g⟩ := by
  have hs : (lookupLast fields "subject").getD .null = subject := by
    simpa [pyGet] using h3
  have ha : (lookupLast fields "action").getD .null = a := by
    simpa [pyGet] using h5
  unfold process_prompt
  rw [h1]
  simp [h2, hs, ha, h4, h6]

/-- C5: a non-success HTTP status from the external service makes
call_language_engine fail with an HTTPException carrying exactly the
upstream status code and a message containing the upstream body text;
raised by the first call, it is not caught by the JSON-parse recovery
and becomes the request outcome with that same status code. -/
theorem c5_upstream_status_propagates (jsonLoads : String → Option JValue)
    (g : KGraph) (net2 : NetResult) (prompt input_text direction : String)
    (resp : HttpResp)
    (h : isSuccess resp.status_code = false) :
    call_language_engine jsonLoads input_text direction (.ok resp)
      = .httpException resp.status_code ("Error from HF API: " ++ resp.text) ∧
    process_prompt jsonLoads g (.ok resp) net2 prompt
      = ⟨.httpError resp.status_code ("Error from HF API: " ++ resp.text),
         [(prompt, "to_query")], 0, g⟩ := by
  have hc : call_language_engine jsonLoads input_text direction (.ok resp)
      = .httpException resp.status_code ("Error from HF API: " ++ resp.text) := by
    simp [call_language_engine, h]
  have hc2 : call_language_engine jsonLoads prompt "to_query" (.ok resp)
      = .httpException resp.status_code ("Error from HF API: " ++ resp.text) := by
    simp [call_language_engine, h]
  exact ⟨hc, process_prompt_first_call_httpError jsonLoads g _ net2 prompt _ _ hc2⟩

/-- C6: every adapter failure other than a non-success upstream status —
a raised transport exception (network error, timeout), a response body
that is not JSON, or a body lacking the first-element generated_text
string — makes call_language_engine fail with an HTTPException of
status 500, which propagates as the request outcome rather than being
recovered locally. -/
theorem c6_internal_failure_500 (jsonLoads : String → Option JValue)
    (g : KGraph) (net net2 : NetResult) (prompt input_text direction : String)
    (h : (∃ msg, net = .exc msg)
       ∨ (∃ resp, net = .ok resp ∧ isSuccess resp.status_code = true
            ∧ jsonLoads resp.text = none)
       ∨ (∃ resp v, net = .ok resp ∧ isSuccess resp.status_code = true
            ∧ jsonLoads resp.text = some v ∧ firstGeneratedText v = none)) :
    ∃ d, call_language_engine jsonLoads input_text direction net
           = .httpException 500 d
       ∧ process_prompt jsonLoads g net net2 prompt
           = ⟨.httpError 500 d, [(prompt, "to_query")], 0, g⟩ := by
  have key : ∃ d, ∀ it dir : String,
      call_language_engine jsonLoads it dir net = .httpException 500 d := by
    rcases h with ⟨msg, rfl⟩ | ⟨resp, rfl, hsu, hj⟩ | ⟨resp, v, rfl, hsu, hj, hf⟩
    · exact ⟨_, fun it dir => rfl⟩
    · refine ⟨"An unexpected error occurred: " ++ jsonDecodeFailureMsg, fun it dir => ?_⟩
      simp [call_language_engine, hsu, hj]
    · refine ⟨"An unexpected error occurred: " ++ responseShapeFailureMsg, fun it dir => ?_⟩
      simp [call_language_engine, hsu, hj, hf]
  rcases key with ⟨d, hd⟩
  exact ⟨d, hd input_text direction,
    process_prompt_first_call_httpError jsonLoads g net net2 prompt 500 d
      (hd prompt "to_query")⟩

/-- For a known subject with action "query_properties" the dispatcher
always makes the sentence-translation call on the serialized subject
and store properties; the outcome then follows that second call. -/
theorem process_prompt_known_query_properties (jsonLoads : String → Option JValue)
    (g : KGraph) (net1 net2 : NetResult) (prompt s : String)
    (fields : List (String × JValue)) (subject : JValue)
    (h1 : call_language_engine jsonLoads prompt "to_query" net1 = .ok s)
    (h2 : jsonLoads s = some (.obj fields))
    (h3 : pyGet (.obj fields) "subject" = some subject)
    (h4 : g.has_node subject = true)
    (h5 : pyGet (.obj fields) "action" = some (.str "query_properties")) :
    process_prompt jsonLoads g net1 net2 prompt =
      (match call_language_engine jsonLoads
          (dumpsJ (.obj [("subject", subject),
                         ("properties", .arr ((g.nodeProperties subject).map .str))]))
          "to_sentence" net2 with
       | .ok t =>
          ⟨.body t "success",
           [(prompt, "to_query"),
            (dumpsJ (.obj [("subject", subject),
                           ("properties", .arr ((g.nodeProperties subject).map .str))]),
             "to_sentence")], 2, g⟩
       | .httpException code detail =>
          ⟨.httpError code detail,
           [(prompt, "to_query"),
            (dumpsJ (.obj [("subject", subject),
                           ("properties", .arr ((g.nodeProperties subject).map .str))]),
             "to_sentence")], 2, g⟩) := by
  have hs : (lookupLast fields "subject").getD .null = subject := by
    simpa [pyGet] using h3
  have ha : (lookupLast fields "action").getD .null = .str "query_properties" := by
    simpa [pyGet] using h5
  unfold process_prompt
  rw [h1]
  rcases hc : call_language_engine jsonLoads
      (dumpsJ (.obj [("subject", subject),
                     ("properties", .arr ((g.nodeProperties subject).map .str))]))
      "to_sentence" net2 with t | ⟨code, detail⟩ <;>
    simp [h2, hs, ha, h4, pyEqStr, hc]

/-- C7: against the seeded store G, a parsed structured query with
subject "ice" and action "query_properties" makes the dispatcher pass
exactly the property list of solid and cold into the sentence-translation
call, whatever that second call then returns. -/
theorem c7_ice_scenario (jsonLoads : String → Option JValue)
    (net1 net2 : NetResult) (prompt s : String)
    (h1 : call_language_engine jsonLoads prompt "to_query" net1 = .ok s)
    (h2 : jsonLoads s = some (.obj [("subject", .str "ice"),
                                    ("action", .str "query_properties")])) :
    (process_prompt jsonLoads G net1 net2 prompt).calls =
      [(prompt, "to_query"),
       ("\x7b\"subject\": \"ice\", \"properties\": [\"solid\", \"cold\"]\x7d",
        "to_sentence")] := by
  rw [process_prompt_known_query_properties jsonLoads G net1 net2 prompt s
    [("subject", .str "ice"), ("action", .str "query_properties")] (.str "ice")
    h1 h2 rfl rfl rfl]
  have hdump : dumpsJ (.obj [("subject", .str "ice"),
      ("properties", .arr ((G.nodeProperties (.str "ice")).map .str))])
      = "\x7b\"subject\": \"ice\", \"properties\": [\"solid\", \"cold\"]\x7d" := rfl
  rw [hdump]
  rcases hc : call_language_engine jsonLoads
      "\x7b\"subject\": \"ice\", \"properties\": [\"solid\", \"cold\"]\x7d"
      "to_sentence" net2 with t | ⟨code, detail⟩ <;> rfl

/-- C8: on a success-status response whose body parses to a JSON array
whose first element binds "generated_text" to a string,
call_language_engine returns that string with leading and trailing
whitespace removed. -/
theorem c8_success_trims (jsonLoads : String → Option JValue)
    (input_text direction : String) (resp : HttpResp)
    (fields : List (String × JValue)) (rest : List JValue) (s : String)
    (h1 : isSuccess resp.status_code = true)
    (h2 : jsonLoads resp.text = some (.arr (.obj fields :: rest)))
    (h3 : lookupLast fields "generated_text" = some (.str s)) :
    call_language_engine jsonLoads input_text direction (.ok resp)
      = .ok (pyStrip s) := by
  simp [call_language_engine, h1, h2, firstGeneratedText, h3]

/-- C9: a request never changes the knowledge store: on every branch
the store after process_prompt is the seeded graph G, whose nodes are
water, ice and heat with their seeded property lists and whose edges
are water to ice and ice to water with their seeded action labels. -/
theorem c9_store_unchanged (jsonLoads : String → Option JValue)
    (net1 net2 : NetResult) (prompt : String) :
    (process_prompt jsonLoads G net1 net2 prompt).graph = G ∧
    G.nodes = [("water", ["liquid", "wet"]), ("ice", ["solid", "cold"]),
               ("heat", ["energy"])] ∧
    G.edges = [("water", "ice", "remove_heat"), ("ice", "water", "apply_heat")] := by
  refine ⟨?_, rfl, rfl⟩
  unfold process_prompt
  repeat' first
  | rfl
  | split
  | dsimp only

/-- Witness for C1: a request whose translated query names ice with
action query_properties ends in success with the translated sentence. -/
theorem c1_query_properties_success_witness :
    process_prompt demoLoads G (.ok ⟨200, "engine says query"⟩)
        (.ok ⟨200, "engine says sentence"⟩) "what is ice" =
      ⟨.body (pyStrip "Ice is solid and cold.") "success",
       [("what is ice", "to_query"),
        (dumpsJ (.obj [("subject", .str "ice"),
                       ("properties", .arr ((G.nodeProperties (.str "ice")).map .str))]),
         "to_sentence")], 2, G⟩ :=
  c1_query_properties_success demoLoads G (.ok ⟨200, "engine says query"⟩)
    (.ok ⟨200, "engine says sentence"⟩) "what is ice"
    "\x7b\"subject\": \"ice\", \"action\": \"query_properties\"\x7d"
    (pyStrip "Ice is solid and cold.")
    [("subject", .str "ice"), ("action", .str "query_properties")] (.str "ice")
    (by rfl) (by rfl) (by rfl) (by rfl) (by rfl) (by rfl)

/-- Witness for C2: a request about the unseeded subject fire ends in
the curiosity response after a single engine call. -/
theorem c2_unknown_subject_curious_witness :
    process_prompt demoLoads G (.ok ⟨200, "engine says fire"⟩)
        (.ok ⟨200, "engine says sentence"⟩) "what is fire" =
      ⟨.body ("I don\x27t have information about \x27" ++ pyStr (.str "fire")
          ++ "\x27. Can you describe its properties or how it relates to things I know?")
        "curious",
       [("what is fire", "to_query")], 1, G⟩ :=
  c2_unknown_subject_curious demoLoads G (.ok ⟨200, "engine says fire"⟩)
    (.ok ⟨200, "engine says sentence"⟩) "what is fire"
    "\x7b\"subject\": \"fire\"\x7d" [("subject", .str "fire")] (.str "fire")
    (by rfl) (by rfl) (by rfl) (by rfl)

/-- Witness for C3: a translator reply of "not json" yields the fixed
rephrase message with status error and no further work. -/
theorem c3_invalid_json_local_recovery_witness :
    process_prompt demoLoads G (.ok ⟨200, "engine says notjson"⟩)
        (.ok ⟨200, "engine says sentence"⟩) "gibberish" =
      ⟨.body "I had trouble understanding that. Could you rephrase?" "error",
       [("gibberish", "to_query")], 0, G⟩ :=
  c3_invalid_json_local_recovery demoLoads G (.ok ⟨200, "engine says notjson"⟩)
    (.ok ⟨200, "engine says sentence"⟩) "gibberish" (pyStrip "not json")
    (by rfl) (by rfl)

/-- Witness for C4: a known subject with the unsupported action freeze
yields the unknown_action response after a single engine call. -/
theorem c4_unknown_action_witness :
    process_prompt demoLoads G (.ok ⟨200, "engine says freeze"⟩)
        (.ok ⟨200, "engine says sentence"⟩) "freeze the ice" =
      ⟨.body "I understand the subject, but I\x27m not sure how to perform that action yet."
        "unknown_action",
       [("freeze the ice", "to_query")], 1, G⟩ :=
  c4_unknown_action demoLoads G (.ok ⟨200, "engine says freeze"⟩)
    (.ok ⟨200, "engine says sentence"⟩) "freeze the ice"
    "\x7b\"subject\": \"ice\", \"action\": \"freeze\"\x7d"
    [("subject", .str "ice"), ("action", .str "freeze")] (.str "ice") (.str "freeze")
    (by rfl) (by rfl) (by rfl) (by rfl) (by rfl) (by rfl)

/-- Witness for C5: an upstream 503 yields an HTTPException with status
503 and the upstream body text, which becomes the request outcome. -/
theorem c5_upstream_status_propagates_witness :
    call_language_engine demoLoads "hello" "to_query"
        (.ok ⟨503, "Service Unavailable"⟩)
      = .httpException 503 ("Error from HF API: " ++ "Service Unavailable") ∧
    process_prompt demoLoads G (.ok ⟨503, "Service Unavailable"⟩)
        (.ok ⟨200, "engine says sentence"⟩) "hello"
      = ⟨.httpError 503 ("Error from HF API: " ++ "Service Unavailable"),
         [("hello", "to_query")], 0, G⟩ :=
  c5_upstream_status_propagates demoLoads G (.ok ⟨200, "engine says sentence"⟩)
    "hello" "hello" "to_query" ⟨503, "Service Unavailable"⟩ (by rfl)

/-- Witness for C6: a raised transport timeout yields an HTTPException
with status 500, which becomes the request outcome. -/
theorem c6_internal_failure_500_witness :
    ∃ d, call_language_engine demoLoads "hello" "to_query"
           (.exc "connection timed out") = .httpException 500 d
       ∧ process_prompt demoLoads G (.exc "connection timed out")
           (.ok ⟨200, "engine says sentence"⟩) "hello"
           = ⟨.httpError 500 d, [("hello", "to_query")], 0, G⟩ :=
  c6_internal_failure_500 demoLoads G (.exc "connection timed out")
    (.ok ⟨200, "engine says sentence"⟩) "hello" "hello" "to_query"
    (Or.inl ⟨"connection timed out", rfl⟩)

/-- Witness for C7: the ice scenario passes exactly solid and cold into
the sentence-translation call. -/
theorem c7_ice_scenario_witness :
    (process_prompt demoLoads G (.ok ⟨200, "engine says query"⟩)
        (.ok ⟨200, "engine says sentence"⟩) "describe ice").calls =
      [("describe ice", "to_query"),
       ("\x7b\"subject\": \"ice\", \"properties\": [\"solid\", \"cold\"]\x7d",
        "to_sentence")] :=
  c7_ice_scenario demoLoads (.ok ⟨200, "engine says query"⟩)
    (.ok ⟨200, "engine says sentence"⟩) "describe ice"
    "\x7b\"subject\": \"ice\", \"action\": \"query_properties\"\x7d"
    (by rfl) (by rfl)

/-- Witness for C8: a padded generated_text comes back stripped of its
leading and trailing whitespace. -/
theorem c8_success_trims_witness :
    call_language_engine demoLoads "structured data" "to_sentence"
        (.ok ⟨200, "engine says padded"⟩)
      = .ok (pyStrip "  Ice is solid and cold.\n") :=
  c8_success_trims demoLoads "structured data" "to_sentence"
    ⟨200, "engine says padded"⟩
    [("generated_text", .str "  Ice is solid and cold.\n")] []
    "  Ice is solid and cold.\n" (by rfl) (by rfl) (by rfl)

/-- C10: a query-translation output that is valid JSON but not a JSON
object is parsed, then .get raises an AttributeError that no handler
catches: the request ends in an unhandled exception and none of the
four statuses is returned. -/
theorem c10_non_object_parse_raises :
    process_prompt demoLoads G (.ok ⟨200, "engine says list"⟩)
        (.ok ⟨200, "engine says sentence"⟩) "tell me" =
      ⟨.raised attributeErrorMsg, [("tell me", "to_query")], 0, G⟩ := by
  rfl

end SCA
